import Mathlib

/-!
Verification of the academic-resource scraper (`src/scraper.py`, class
`ResourceScraper`) against its natural-language specification.

The development is a shallow embedding of the Python source:

* pure string manipulation (`sanitize_filename`, the arXiv PDF-link
  derivation) is translated character-for-character onto `List Char` /
  `String`;
* every external effect (HTTP GET/HEAD, JSON/XML/HTML parsing of a remote
  payload, the filesystem) is an oracle value supplied as an argument; an
  oracle outcome is either a value or a raised Python exception, so each
  adapter/worker is a total Lean function of its oracle environment;
* Python exception classes are collapsed to the two classes the source
  distinguishes: `requests.RequestException` and everything else.

Each `search_*` definition mirrors the control flow of the function of the
same name in `src/scraper.py`; comments cite the source lines.
-/

/-- The two exception classes distinguished by the source:
`requests.RequestException` (caught by `search_eric`'s handler,
scraper.py:613) and any other `Exception`. -/
inductive PyExc : Type
  | reqExc : PyExc
  | otherExc : PyExc
deriving DecidableEq, Repr

/-- Outcome of one external (oracle) operation: a value, or a raised
exception. -/
inductive Outcome (α : Type) : Type
  | ok : α → Outcome α
  | raise : PyExc → Outcome α
deriving DecidableEq, Repr

/-- Python truthiness of an optional string: `None` (or an absent dict key)
and the empty string are falsy, every other string is truthy. -/
def pyTruthy : Option String → Bool
  | none => false
  | some s => !s.isEmpty

/-! ## Filename sanitizer (scraper.py:47-53)

`sanitize_filename` is
```
filename = "".join(c for c in filename if c.isalnum() or c in (' ', '-', '_', '.'))
filename = ' '.join(filename.split())
if len(filename) > 150: filename = filename[:147] + "..."
```
modelled on `List Char`.  `pyIsAlnum` is Python's `str.isalnum` restricted
to ASCII; nothing below depends on the exact alphabet beyond alphanumeric
characters not being whitespace, which holds in Python as well. -/

def pyIsAlnum (c : Char) : Bool := c.isAlphanum

/-- Whitespace as used by Python's `str.split()` (restricted to the ASCII
whitespace that can appear here). -/
def pyIsSpace (c : Char) : Bool := c.isWhitespace

/-- The character filter of scraper.py:49: keep `c` iff
`c.isalnum() or c in (' ', '-', '_', '.')`. -/
def allowedChar (c : Char) : Bool :=
  pyIsAlnum c || c == ' ' || c == '-' || c == '_' || c == '.'

/-- scraper.py:49, the `"".join(c for c in filename if ...)` pass. -/
def pyFilterChars (s : List Char) : List Char := s.filter allowedChar

/-- Python's `str.split()` with no argument: split on runs of whitespace,
returning the (nonempty) maximal whitespace-free segments.  Stated as a
right-to-left structural recursion: a non-whitespace character either
starts a fresh segment (at the end of the string or before whitespace) or
is prepended to the segment that begins right after it. -/
def pySplit : List Char → List (List Char)
  | [] => []
  | c :: cs =>
    if pyIsSpace c then pySplit cs
    else
      match cs with
      | [] => [[c]]
      | d :: _ =>
        if pyIsSpace d then [c] :: pySplit cs
        else
          match pySplit cs with
          | [] => [[c]]
          | w :: ws => (c :: w) :: ws

/-- Python's `' '.join(ws)`: concatenate the segments with a single space
between consecutive segments. -/
def pyJoin : List (List Char) → List Char
  | [] => []
  | [w] => w
  | w :: ws => w ++ ' ' :: pyJoin ws

/-- scraper.py:50, the `' '.join(filename.split())` pass. -/
def pyCollapse (s : List Char) : List Char := pyJoin (pySplit s)

/-- scraper.py:47-53, `ResourceScraper.sanitize_filename`. -/
def sanitize_filename (s : List Char) : List Char :=
  let f1 := pyFilterChars s
  let f2 := pyCollapse f1
  if 150 < f2.length then f2.take 147 ++ ['.', '.', '.'] else f2

/-- The sanitizer lifted to `String`, used by the download worker. -/
def sanitizeFilenameStr (s : String) : String :=
  String.mk (sanitize_filename s.data)

/-! ## Canonical-form predicates for the sanitizer proofs

`spacedOk` says: every whitespace character is a plain `' '` immediately
followed by a non-whitespace character (so in particular the last
character is not whitespace).  `goodSep` adds that the first character is
not whitespace: exactly the strings fixed by `' '.join(s.split())`.
`pairsOk` is the prefix-stable weakening of `spacedOk` (the last character
may be a `' '`). -/

def spacedOk : List Char → Bool
  | [] => true
  | [c] => !pyIsSpace c
  | c :: d :: rest => (!pyIsSpace c || (c == ' ' && !pyIsSpace d)) && spacedOk (d :: rest)

def goodSep : List Char → Bool
  | [] => true
  | c :: cs => !pyIsSpace c && spacedOk (c :: cs)

def pairsOk : List Char → Bool
  | [] => true
  | [c] => !pyIsSpace c || c == ' '
  | c :: d :: rest => (!pyIsSpace c || (c == ' ' && !pyIsSpace d)) && pairsOk (d :: rest)

/-! ## The result record (spec §3; the dicts built at scraper.py:98-104,
156-162, 260-266, 337-343, 404-410, 494-500, 589-599, 674-681)

`none` in an `Option String` field models both an absent dict key and a
`None` value (the source never distinguishes the two when reading). -/

structure Record where
  title : String
  authors : List String
  published : String
  summary : String
  url : Option String
  pdf_url : Option String
  source : Option String
deriving DecidableEq, Repr

/-! ## Shared adapter machinery

Every `search_*` function wraps its body in a `try`/`except`.  The body is
modelled in `Except PyExc`; the handler of scraper.py:117, 176, 279, 350,
420, 513, 692 (`except Exception`) is `pyCatchAll`, the handler of
scraper.py:613 (`except requests.RequestException`) is `pyCatchRequests`.
Both substitute the empty list for a caught exception. -/

def pyCatchAll (x : Except PyExc (List Record)) : Except PyExc (List Record) :=
  match x with
  | Except.error _ => Except.ok []
  | r => r

def pyCatchRequests (x : Except PyExc (List Record)) : Except PyExc (List Record) :=
  match x with
  | Except.error PyExc.reqExc => Except.ok []
  | r => r

/-- The per-entry loop shared by the adapters: each raw entry is an oracle
outcome (parsing may raise), and processing an entry may itself raise or
decline to produce a record.  A raised exception is caught by the
per-entry `except`/`continue` (e.g. scraper.py:108-110), a declined entry
is simply not appended. -/
def entryLoopE {α : Type} (f : α → Except PyExc (Option Record)) :
    List (Outcome α) → List Record
  | [] => []
  | Outcome.raise _ :: es => entryLoopE f es
  | Outcome.ok a :: es =>
    match f a with
    | Except.error _ => entryLoopE f es
    | Except.ok none => entryLoopE f es
    | Except.ok (some r) => r :: entryLoopE f es

/-- The per-entry loop with the `if len(results) >= max_results: break`
check of scraper.py:270-271 and 504-505: `n` is the number of records
appended so far. -/
def entryLoopCount {α : Type} (f : α → Except PyExc (Option Record)) (limit : Nat) :
    List (Outcome α) → Nat → List Record
  | [], _ => []
  | Outcome.raise _ :: es, n => entryLoopCount f limit es n
  | Outcome.ok a :: es, n =>
    match f a with
    | Except.error _ => entryLoopCount f limit es n
    | Except.ok none => entryLoopCount f limit es n
    | Except.ok (some r) =>
      if limit ≤ n + 1 then [r] else r :: entryLoopCount f limit es (n + 1)

/-! ## String helpers used by the arXiv adapter -/

/-- Substring scan: does `pat` occur (as a contiguous run) in `l`? -/
def listContains (pat : List Char) : List Char → Bool
  | [] => pat.isEmpty
  | c :: cs => pat.isPrefixOf (c :: cs) || listContains pat cs

/-- Python's `pat in s` substring test. -/
def strContains (s pat : String) : Bool := listContains pat.data s.data

/-- Python's `s.replace(pat, rep)`: replace every non-overlapping
occurrence of `pat`, scanning left to right.  (For the empty pattern
Python interleaves `rep` everywhere; the source only ever replaces the
non-empty pattern `'abs'`, and this model returns the recursion below,
which leaves such a string unchanged only in the guarded wrapper.) -/
def pyReplaceGo (pat rep : List Char) : Nat → List Char → List Char
  | 0, l => l
  | _ + 1, [] => []
  | n + 1, c :: cs =>
    if pat.isPrefixOf (c :: cs) then rep ++ pyReplaceGo pat rep n (cs.drop (pat.length - 1))
    else c :: pyReplaceGo pat rep n cs

/-- Python's `s.replace(pat, rep)` for a non-empty `pat` (the only use in
the source is `pdf_url.replace('abs', 'pdf')`, scraper.py:94).  The fuel
`s.length` bounds the number of scanning steps, which consume at least one
character each, so it never runs out. -/
def pyReplace (s pat rep : String) : String :=
  if pat.data.isEmpty then s
  else String.mk (pyReplaceGo pat.data rep.data s.data.length s.data)

/-! ## arXiv adapter (scraper.py:55-119) -/

/-- One `<link>` element of an arXiv Atom entry: its `title`, `type` and
`href` attributes (`link.get(...)` returns `None` for a missing
attribute). -/
structure ArxivLink where
  titleAttr : Option String
  typeAttr : Option String
  href : Option String
deriving DecidableEq, Repr

/-- One parsed `<entry>` of the arXiv feed, as read at scraper.py:81-88. -/
structure ArxivEntry where
  title : String
  authors : List String
  published : String
  summary : String
  links : List ArxivLink
deriving DecidableEq, Repr

/-- scraper.py:88-95: scan the entry's links for the first one with
`title == 'pdf'` or `type == 'application/pdf'`; take its `href`; if that
href lacks the substring `'pdf'`, rewrite `'abs'` to `'pdf'` and append
`'.pdf'`.  A matching link with no `href` makes `'pdf' not in None` raise
a `TypeError` (caught by the per-entry handler). -/
def arxivPdfUrl : List ArxivLink → Except PyExc (Option String)
  | [] => Except.ok none
  | l :: ls =>
    if l.titleAttr == some "pdf" || l.typeAttr == some "application/pdf" then
      match l.href with
      | none => Except.error PyExc.otherExc
      | some h =>
        Except.ok (some (if strContains h "pdf" then h else pyReplace h "abs" "pdf" ++ ".pdf"))
    else arxivPdfUrl ls

/-- scraper.py:79-110, the body of the per-entry `try`: derive the PDF
link and append a record exactly when one was derived (`if pdf_url:`,
scraper.py:97). -/
def processArxivEntry (e : ArxivEntry) : Except PyExc (Option Record) :=
  match arxivPdfUrl e.links with
  | Except.error ex => Except.error ex
  | Except.ok none => Except.ok none
  | Except.ok (some u) =>
    Except.ok (some { title := e.title, authors := e.authors, published := e.published,
                      summary := e.summary, url := some u, pdf_url := none, source := none })

/-- Modelled from the spec's words for claim C9 only (not from the code):
"preferring a link tagged `pdf` or of MIME type `application/pdf`, else
rewriting an `abs` link path segment to `pdf` and appending `.pdf`" — i.e.
a fallback that derives a PDF URL from a link whose href contains `abs`
even when no link is tagged as PDF. -/
def specArxivPdfUrl (links : List ArxivLink) : Option String :=
  match links.find? (fun l => l.titleAttr == some "pdf" || l.typeAttr == some "application/pdf") with
  | some l => l.href
  | none =>
    match links.find? (fun l =>
        match l.href with
        | some h => strContains h "abs"
        | none => false) with
    | some l =>
      match l.href with
      | some h => some (pyReplace h "abs" "pdf" ++ ".pdf")
      | none => none
    | none => none

/-- scraper.py:55-119, `ResourceScraper.search_arxiv`.  `getRes` is the
outcome of the `session.get` (scraper.py:63) — its status code, or a
raised exception; `feed` is the outcome of `ET.fromstring` plus the
`findall` over entries (scraper.py:67-78), each entry in turn being the
outcome of parsing that entry's fields (scraper.py:81-88). -/
def search_arxiv (getRes : Outcome Nat) (feed : Outcome (List (Outcome ArxivEntry))) :
    Except PyExc (List Record) :=
  pyCatchAll
    (match getRes with
     | Outcome.raise e => Except.error e
     | Outcome.ok status =>
       if status == 200 then
         match feed with
         | Outcome.raise e => Except.error e
         | Outcome.ok entries => Except.ok (entryLoopE processArxivEntry entries)
       else Except.ok [])

/-! ## The seven other adapters (scraper.py:121-694)

Their per-entry parsing has no claim about its internals, so each raw
entry is abstracted as an oracle `Outcome (Option Record)`: `ok (some r)`
— the entry parses to record `r`; `ok none` — one of the entry's own skip
conditions fired (missing title, no open-access PDF, ...); `raise e` — an
exception inside the per-entry `try`.  The top-level payload parse
(`response.json()`, `ET.fromstring`, `BeautifulSoup`) is likewise an
oracle that can raise. -/

/-- scraper.py:121-178, `ResourceScraper.search_semantic_scholar`:
`session.get` (scraper.py:132, `timeout=30`), `== 200` check, `json()`
parse, unbounded loop over `data['data']`, `except Exception` at top. -/
def search_semantic_scholar (getRes : Outcome Nat)
    (payload : Outcome (List (Outcome (Option Record)))) : Except PyExc (List Record) :=
  pyCatchAll
    (match getRes with
     | Outcome.raise e => Except.error e
     | Outcome.ok status =>
       if status == 200 then
         match payload with
         | Outcome.raise e => Except.error e
         | Outcome.ok entries => Except.ok (entryLoopE (fun o => Except.ok o) entries)
       else Except.ok [])

/-- scraper.py:180-281, `ResourceScraper.search_pmc`: esearch GET
(scraper.py:195), `!= 200` guard, `json()` giving the id list, empty-id
short-circuit (scraper.py:203-204), efetch GET (scraper.py:214), `!= 200`
guard, `ET.fromstring`, loop with the `len(results) >= max_results` break
(scraper.py:270-271), `except Exception` at top. -/
def search_pmc (get1 : Outcome Nat) (ids : Outcome (List String)) (get2 : Outcome Nat)
    (articles : Outcome (List (Outcome (Option Record)))) (maxResults : Nat) :
    Except PyExc (List Record) :=
  pyCatchAll
    (match get1 with
     | Outcome.raise e => Except.error e
     | Outcome.ok status1 =>
       if status1 != 200 then Except.ok []
       else
         match ids with
         | Outcome.raise e => Except.error e
         | Outcome.ok idlist =>
           if idlist.isEmpty then Except.ok []
           else
             match get2 with
             | Outcome.raise e => Except.error e
             | Outcome.ok status2 =>
               if status2 != 200 then Except.ok []
               else
                 match articles with
                 | Outcome.raise e => Except.error e
                 | Outcome.ok entries =>
                   Except.ok (entryLoopCount (fun o => Except.ok o) maxResults entries 0))

/-- scraper.py:283-352, `ResourceScraper.search_google_scholar`: GET
(scraper.py:295, `timeout=30`), `== 200` check, BeautifulSoup parse, loop
over `articles[:max_results]`, `except Exception` at top. -/
def search_google_scholar (getRes : Outcome Nat)
    (page : Outcome (List (Outcome (Option Record)))) (maxResults : Nat) :
    Except PyExc (List Record) :=
  pyCatchAll
    (match getRes with
     | Outcome.raise e => Except.error e
     | Outcome.ok status =>
       if status == 200 then
         match page with
         | Outcome.raise e => Except.error e
         | Outcome.ok entries =>
           Except.ok (entryLoopE (fun o => Except.ok o) (entries.take maxResults))
       else Except.ok [])

/-- scraper.py:354-422, `ResourceScraper.search_google_books`: GET
(scraper.py:367, `timeout=30`), `== 200` check, `json()`, loop over
`items[:max_results]`, `except Exception` at top. -/
def search_google_books (getRes : Outcome Nat)
    (payload : Outcome (List (Outcome (Option Record)))) (maxResults : Nat) :
    Except PyExc (List Record) :=
  pyCatchAll
    (match getRes with
     | Outcome.raise e => Except.error e
     | Outcome.ok status =>
       if status == 200 then
         match payload with
         | Outcome.raise e => Except.error e
         | Outcome.ok entries =>
           Except.ok (entryLoopE (fun o => Except.ok o) (entries.take maxResults))
       else Except.ok [])

/-- scraper.py:424-515, `ResourceScraper.search_wikibooks`: GET
(scraper.py:439, `timeout=30`), `== 200` check, BeautifulSoup parse, loop
over `search_results[:max_results]` with the `len(results) >= max_results`
break (scraper.py:504-505); the per-result inner GET of the book page
(scraper.py:465) is part of the per-entry oracle; `except Exception` at
top. -/
def search_wikibooks (getRes : Outcome Nat)
    (page : Outcome (List (Outcome (Option Record)))) (maxResults : Nat) :
    Except PyExc (List Record) :=
  pyCatchAll
    (match getRes with
     | Outcome.raise e => Except.error e
     | Outcome.ok status =>
       if status == 200 then
         match page with
         | Outcome.raise e => Except.error e
         | Outcome.ok entries =>
           Except.ok (entryLoopCount (fun o => Except.ok o) maxResults (entries.take maxResults) 0)
       else Except.ok [])

/-- scraper.py:517-615, `ResourceScraper.search_eric`: GET with NO timeout
(scraper.py:539), `raise_for_status()` (scraper.py:540, raising a
`requests.HTTPError` — a `RequestException` — for a 4xx/5xx status),
BeautifulSoup parse, loop over `results[:max_results]` (the per-result
HEAD probe of scraper.py:568 is part of the per-entry oracle), and —
unlike every other adapter — `except requests.RequestException` at top
(scraper.py:613). -/
def search_eric (getRes : Outcome Nat)
    (page : Outcome (List (Outcome (Option Record)))) (maxResults : Nat) :
    Except PyExc (List Record) :=
  pyCatchRequests
    (match getRes with
     | Outcome.raise e => Except.error e
     | Outcome.ok status =>
       if 400 ≤ status then Except.error PyExc.reqExc
       else
         match page with
         | Outcome.raise e => Except.error e
         | Outcome.ok entries =>
           Except.ok (entryLoopE (fun o => Except.ok o) (entries.take maxResults)))

/-- scraper.py:617-694, `ResourceScraper.search_openlibrary`: GET with NO
timeout (scraper.py:638), `raise_for_status()` (scraper.py:639), `json()`,
loop over `data['docs'][:max_results]`, `except Exception` at top. -/
def search_openlibrary (getRes : Outcome Nat)
    (payload : Outcome (List (Outcome (Option Record)))) (maxResults : Nat) :
    Except PyExc (List Record) :=
  pyCatchAll
    (match getRes with
     | Outcome.raise e => Except.error e
     | Outcome.ok status =>
       if 400 ≤ status then Except.error PyExc.reqExc
       else
         match payload with
         | Outcome.raise e => Except.error e
         | Outcome.ok entries =>
           Except.ok (entryLoopE (fun o => Except.ok o) (entries.take maxResults)))

/-! ## Outbound request sites (claim C8)

A transcription of every `self.session.get`/`self.session.head` call in
the source, with the `timeout=` argument each call passes (or `none` when
the call passes no timeout). -/

inductive RequestKind : Type
  | get : RequestKind
  | head : RequestKind
deriving DecidableEq, Repr

structure RequestSite where
  caller : String
  line : Nat
  kind : RequestKind
  timeout : Option Nat
deriving DecidableEq, Repr

/-- Every outbound HTTP call in scraper.py, in source order. -/
def requestSites : List RequestSite :=
  [ { caller := "search_arxiv", line := 63, kind := RequestKind.get, timeout := some 30 },
    { caller := "search_semantic_scholar", line := 132, kind := RequestKind.get, timeout := some 30 },
    { caller := "search_pmc", line := 195, kind := RequestKind.get, timeout := some 30 },
    { caller := "search_pmc", line := 214, kind := RequestKind.get, timeout := some 30 },
    { caller := "search_google_scholar", line := 295, kind := RequestKind.get, timeout := some 30 },
    { caller := "search_google_books", line := 367, kind := RequestKind.get, timeout := some 30 },
    { caller := "search_wikibooks", line := 439, kind := RequestKind.get, timeout := some 30 },
    { caller := "search_wikibooks", line := 465, kind := RequestKind.get, timeout := some 30 },
    { caller := "search_eric", line := 539, kind := RequestKind.get, timeout := none },
    { caller := "search_eric", line := 568, kind := RequestKind.head, timeout := none },
    { caller := "search_openlibrary", line := 638, kind := RequestKind.get, timeout := none },
    { caller := "download_paper", line := 762, kind := RequestKind.get, timeout := some 30 } ]

/-! ## Download worker (scraper.py:745-776) -/

/-- Oracle environment of one `download_paper` call: the outcome of
`self._create_output_dir()` (scraper.py:748 — it re-raises on failure,
scraper.py:45), the filesystem (`os.path.exists`), the outcome of the
streaming GET (scraper.py:762, its status code or a raised exception) and
the outcome of writing the chunks (scraper.py:764-767). -/
structure DlEnv where
  mkdir : Outcome Unit
  fsExists : String → Bool
  fetch : Outcome Nat
  write : Outcome Unit

/-- Result of one modelled `download_paper` call: the Python return value
(or the exception the body raised, before the handler), how many network
fetches were issued, and the filesystem afterwards. -/
structure DlOut where
  res : Except PyExc (Bool × Option String)
  fetches : Nat
  fs : String → Bool

/-- scraper.py:750-754: the path the download will use —
`os.path.join(self.output_dir, sanitize_filename(title))` with `'.pdf'`
appended when the sanitized title does not already end in `'.pdf'`. -/
def computedPath (outputDir title : String) : String :=
  let safe0 := sanitizeFilenameStr title
  let safe := if List.isSuffixOf ".pdf".data safe0.data then safe0 else safe0 ++ ".pdf"
  outputDir ++ "/" ++ safe

/-- Mark `path` as present in the filesystem (the `open(filepath, 'wb')`
of scraper.py:764 creates the file). -/
def fsAdd (fs : String → Bool) (path : String) : String → Bool :=
  fun p => p == path || fs p

/-- scraper.py:747-772, the body of `download_paper`'s `try`. -/
def download_paper_run (env : DlEnv) (outputDir : String) (url : Option String)
    (title : String) : DlOut :=
  match env.mkdir with
  | Outcome.raise e => { res := Except.error e, fetches := 0, fs := env.fsExists }
  | Outcome.ok _ =>
    let filepath := computedPath outputDir title
    if env.fsExists filepath then
      { res := Except.ok (true, some filepath), fetches := 0, fs := env.fsExists }
    else
      match env.fetch with
      | Outcome.raise e => { res := Except.error e, fetches := 1, fs := env.fsExists }
      | Outcome.ok status =>
        if status == 200 then
          match env.write with
          | Outcome.raise e =>
            { res := Except.error e, fetches := 1, fs := fsAdd env.fsExists filepath }
          | Outcome.ok _ =>
            { res := Except.ok (true, some filepath), fetches := 1,
              fs := fsAdd env.fsExists filepath }
        else { res := Except.ok (false, none), fetches := 1, fs := env.fsExists }
  -- `url` itself is never inspected by the source beyond passing it to
  -- `session.get`; the fetch outcome oracle absorbs it.

/-- scraper.py:745-776, `ResourceScraper.download_paper`: the body wrapped
in `except Exception: return False, None` (scraper.py:774-776; nothing is
removed from the filesystem on failure). -/
def download_paper (env : DlEnv) (outputDir : String) (url : Option String)
    (title : String) : DlOut :=
  let out := download_paper_run env outputDir url title
  { out with res :=
      match out.res with
      | Except.error _ => Except.ok (false, none)
      | r => r }

/-! ## Orchestrator (scraper.py:696-743) -/

/-- scraper.py:698-718: `all_results = []` followed by the eight
`all_results.extend(...)` calls, in source order. -/
def accumulate (arxivR semanticR pmcR scholarR booksR wikiR ericR openlibR : List Record) :
    List Record :=
  (((((((([] : List Record) ++ arxivR) ++ semanticR) ++ pmcR) ++ scholarR)
    ++ booksR) ++ wikiR) ++ ericR) ++ openlibR

/-- scraper.py:731: the guard of the submission comprehension,
`if paper.get('pdf_url') or paper.get('url')`. -/
def submitFilter (p : Record) : Bool := pyTruthy p.pdf_url || pyTruthy p.url

/-- Modelled from the spec's words for claim C2 only (not from the code):
"a record is eligible for download only if at least one of
`url`/`pdf_url` is non-empty and `title` is non-empty". -/
def specEligible (p : Record) : Bool :=
  (pyTruthy p.url || pyTruthy p.pdf_url) && !p.title.isEmpty

/-- scraper.py:726-732: the papers for which a download task is submitted. -/
def submittedPapers (allResults : List Record) : List Record :=
  allResults.filter submitFilter

/-- scraper.py:729: the url argument of the submitted task,
`paper.get('pdf_url', paper.get('url'))`. -/
def downloadArg (p : Record) : Option String :=
  match p.pdf_url with
  | some v => some v
  | none => p.url

/-- scraper.py:734-741: drain the futures; a future whose `result()`
raises is logged and excluded, a `(False, _)` result is dropped, a
`(True, fp)` result contributes `(title, fp)`.  (Real completion order is
nondeterministic; no claim concerns the order of this list, so submission
order is used.) -/
def collectDownloads (futs : List (Except PyExc (Bool × Option String) × String)) :
    List (String × Option String) :=
  futs.filterMap (fun f =>
    match f.1 with
    | Except.error _ => none
    | Except.ok (true, fp) => some (f.2, fp)
    | Except.ok (false, _) => none)

/-- The titles whose future hit the `except` branch of scraper.py:740-741. -/
def erroredFutures (futs : List (Except PyExc (Bool × Option String) × String)) :
    List String :=
  futs.filterMap (fun f =>
    match f.1 with
    | Except.error _ => some f.2
    | Except.ok _ => none)

/-- scraper.py:696-743, `ResourceScraper.search_and_download`, over the
eight adapter result lists (in the source's invocation order) and a
download oracle `dl` standing for `self.download_paper` (its value is the
outcome `future.result()` later reports). -/
def search_and_download (arxivR semanticR pmcR scholarR booksR wikiR ericR openlibR : List Record)
    (dl : Option String → String → Except PyExc (Bool × Option String)) :
    List (String × Option String) :=
  let allResults := accumulate arxivR semanticR pmcR scholarR booksR wikiR ericR openlibR
  if allResults.isEmpty then []
  else
    collectDownloads
      ((submittedPapers allResults).map (fun p => (dl (downloadArg p) p.title, p.title)))

/-! # Theorems

## Sanitizer lemmas -/

theorem spacedOk_tail (c : Char) (cs : List Char) (h : spacedOk (c :: cs) = true) :
    spacedOk cs = true := by
  cases cs with
  | nil => simp [spacedOk]
  | cons d rest =>
    simp only [spacedOk, Bool.and_eq_true] at h
    exact h.2

theorem spacedOk_append_right :
    ∀ (a b : List Char), spacedOk (a ++ b) = true → spacedOk b = true := by
  intro a
  induction a with
  | nil => intro b h; simpa using h
  | cons c a' ih =>
    intro b h
    exact ih b (spacedOk_tail c (a' ++ b) h)

theorem pySplit_cons (c : Char) (cs : List Char) :
    pySplit (c :: cs) =
      if pyIsSpace c then pySplit cs
      else
        match cs with
        | [] => [[c]]
        | d :: _ =>
          if pyIsSpace d then [c] :: pySplit cs
          else
            match pySplit cs with
            | [] => [[c]]
            | w :: ws => (c :: w) :: ws := rfl

theorem pySplit_cons_sp (c : Char) (cs : List Char) (h : pyIsSpace c = true) :
    pySplit (c :: cs) = pySplit cs := by
  rw [pySplit_cons, if_pos h]

theorem pySplit_single_ns (c : Char) (h : pyIsSpace c = false) :
    pySplit [c] = [[c]] := by
  rw [pySplit_cons, if_neg (by simp [h])]

theorem pySplit_cons2_ns_sp (c d : Char) (rest : List Char)
    (hc : pyIsSpace c = false) (hd : pyIsSpace d = true) :
    pySplit (c :: d :: rest) = [c] :: pySplit (d :: rest) := by
  rw [pySplit_cons, if_neg (by simp [hc])]
  simp only [hd, if_true]

theorem pySplit_cons2_ns_ns (c d : Char) (rest : List Char)
    (hc : pyIsSpace c = false) (hd : pyIsSpace d = false) :
    pySplit (c :: d :: rest) =
      match pySplit (d :: rest) with
      | [] => [[c]]
      | w :: ws => (c :: w) :: ws := by
  rw [pySplit_cons, if_neg (by simp [hc])]
  simp only [hd, Bool.false_eq_true, if_false]

theorem pySplit_cons_nonspace_ne_nil (c : Char) (cs : List Char)
    (h : pyIsSpace c = false) : pySplit (c :: cs) ≠ [] := by
  cases cs with
  | nil => rw [pySplit_single_ns c h]; simp
  | cons d rest =>
    by_cases hd : pyIsSpace d
    · rw [pySplit_cons2_ns_sp c d rest h hd]; simp
    · rw [pySplit_cons2_ns_ns c d rest h (by simpa using hd)]
      cases h' : pySplit (d :: rest) <;> simp

theorem pySplit_sound :
    ∀ (s : List Char), ∀ w ∈ pySplit s,
      w ≠ [] ∧ ∀ c ∈ w, pyIsSpace c = false ∧ c ∈ s := by
  intro s
  induction s with
  | nil => intro w hw; simp [pySplit] at hw
  | cons c cs ih =>
    intro w hw
    by_cases hc : pyIsSpace c
    · rw [pySplit_cons_sp c cs hc] at hw
      obtain ⟨hne, hall⟩ := ih w hw
      exact ⟨hne, fun x hx => ⟨(hall x hx).1, List.mem_cons_of_mem c (hall x hx).2⟩⟩
    · replace hc : pyIsSpace c = false := by simpa using hc
      cases cs with
      | nil =>
        rw [pySplit_single_ns c hc] at hw
        simp only [List.mem_singleton] at hw
        subst hw
        refine ⟨by simp, ?_⟩
        intro x hx
        simp only [List.mem_singleton] at hx
        subst hx
        exact ⟨hc, by simp⟩
      | cons d rest =>
        by_cases hd : pyIsSpace d
        · rw [pySplit_cons2_ns_sp c d rest hc hd] at hw
          rcases List.mem_cons.mp hw with hw | hw
          · subst hw
            refine ⟨by simp, ?_⟩
            intro x hx
            simp only [List.mem_singleton] at hx
            subst hx
            exact ⟨hc, by simp⟩
          · obtain ⟨hne, hall⟩ := ih w hw
            exact ⟨hne, fun x hx => ⟨(hall x hx).1, List.mem_cons_of_mem c (hall x hx).2⟩⟩
        · rw [pySplit_cons2_ns_ns c d rest hc (by simpa using hd)] at hw
          cases h' : pySplit (d :: rest) with
          | nil =>
            rw [h'] at hw
            simp only [List.mem_singleton] at hw
            subst hw
            refine ⟨by simp, ?_⟩
            intro x hx
            simp only [List.mem_singleton] at hx
            subst hx
            exact ⟨by simpa using hc, by simp⟩
          | cons w' ws' =>
            rw [h'] at hw
            rcases List.mem_cons.mp hw with hw | hw
            · subst hw
              have hmem : w' ∈ pySplit (d :: rest) := by rw [h']; exact List.mem_cons_self _ _
              obtain ⟨_, hall⟩ := ih w' hmem
              refine ⟨by simp, ?_⟩
              intro x hx
              rcases List.mem_cons.mp hx with hx | hx
              · subst hx
                exact ⟨by simpa using hc, by simp⟩
              · exact ⟨(hall x hx).1, List.mem_cons_of_mem c (hall x hx).2⟩
            · have hmem : w ∈ pySplit (d :: rest) := by rw [h']; exact List.mem_cons_of_mem _ hw
              obtain ⟨hne, hall⟩ := ih w hmem
              exact ⟨hne, fun x hx => ⟨(hall x hx).1, List.mem_cons_of_mem c (hall x hx).2⟩⟩

theorem pyJoin_cons_head (c : Char) (w : List Char) (ws : List (List Char)) :
    pyJoin ((c :: w) :: ws) = c :: pyJoin (w :: ws) := by
  cases ws <;> rfl

theorem pyJoin_cons_of_ne (w : List Char) (ws : List (List Char)) (h : ws ≠ []) :
    pyJoin (w :: ws) = w ++ ' ' :: pyJoin ws := by
  cases ws with
  | nil => exact absurd rfl h
  | cons x xs => rfl

theorem mem_pyJoin :
    ∀ (ws : List (List Char)) (c : Char), c ∈ pyJoin ws → c = ' ' ∨ ∃ w ∈ ws, c ∈ w := by
  intro ws
  induction ws with
  | nil => intro c hc; simp [pyJoin] at hc
  | cons w ws' ih =>
    intro c hc
    cases ws' with
    | nil =>
      right
      exact ⟨w, by simp, by simpa [pyJoin] using hc⟩
    | cons x xs =>
      rw [pyJoin_cons_of_ne w (x :: xs) (by simp)] at hc
      rcases List.mem_append.mp hc with hc | hc
      · exact Or.inr ⟨w, by simp, hc⟩
      · rcases List.mem_cons.mp hc with hc | hc
        · exact Or.inl hc
        · rcases ih c hc with h | ⟨w', hw', hcw'⟩
          · exact Or.inl h
          · exact Or.inr ⟨w', List.mem_cons_of_mem w hw', hcw'⟩

theorem pyCollapse_of_goodSep_aux :
    ∀ (n : Nat) (s : List Char), s.length ≤ n → goodSep s = true →
      pyJoin (pySplit s) = s := by
  intro n
  induction n with
  | zero =>
    intro s hlen _
    have : s = [] := List.length_eq_zero.mp (Nat.le_zero.mp hlen)
    subst this
    rfl
  | succ m ih =>
    intro s hlen hgood
    cases s with
    | nil => rfl
    | cons c cs =>
      simp only [goodSep, Bool.and_eq_true] at hgood
      obtain ⟨hc, hsp⟩ := hgood
      have hc' : pyIsSpace c = false := by simpa using hc
      cases cs with
      | nil => rw [pySplit_single_ns c hc']; rfl
      | cons d cs' =>
        by_cases hd : pyIsSpace d
        · -- the character after `c` is whitespace: `spacedOk` forces it to be
          -- a `' '` followed by a non-whitespace character
          have hsp' : spacedOk (d :: cs') = true := spacedOk_tail c (d :: cs') hsp
          cases cs' with
          | nil =>
            simp [spacedOk, hd] at hsp'
          | cons e cs'' =>
            simp only [spacedOk, Bool.and_eq_true, Bool.or_eq_true] at hsp'
            obtain ⟨hde, hspe⟩ := hsp'
            rcases hde with hde | hde
            · simp [hd] at hde
            · simp only [Bool.and_eq_true, beq_iff_eq] at hde
              obtain ⟨hdspace, he⟩ := hde
              have he' : pyIsSpace e = false := by simpa using he
              rw [pySplit_cons2_ns_sp c d (e :: cs'') hc' hd,
                 pySplit_cons_sp d (e :: cs'') hd]
              have hne : pySplit (e :: cs'') ≠ [] :=
                pySplit_cons_nonspace_ne_nil e cs'' he'
              rw [pyJoin_cons_of_ne [c] (pySplit (e :: cs'')) hne]
              have hrec : pyJoin (pySplit (e :: cs'')) = e :: cs'' := by
                apply ih
                · simp only [List.length_cons] at hlen ⊢
                  omega
                · simp only [goodSep, he', Bool.not_false, Bool.true_and]
                  exact hspe
              rw [hrec, hdspace]
              rfl
        · -- the character after `c` is not whitespace: `c` is glued onto the
          -- first segment of the tail
          have hd' : pyIsSpace d = false := by simpa using hd
          have hne : pySplit (d :: cs') ≠ [] := pySplit_cons_nonspace_ne_nil d cs' hd'
          rw [pySplit_cons2_ns_ns c d cs' hc' hd']
          cases h' : pySplit (d :: cs') with
          | nil => exact absurd h' hne
          | cons w ws =>
            have hrec : pyJoin (pySplit (d :: cs')) = d :: cs' := by
              apply ih
              · simp only [List.length_cons] at hlen ⊢
                omega
              · simp only [goodSep, hd', Bool.not_false, Bool.true_and]
                exact spacedOk_tail c (d :: cs') hsp
            rw [h'] at hrec
            calc pyJoin ((c :: w) :: ws) = c :: pyJoin (w :: ws) := pyJoin_cons_head c w ws
              _ = c :: d :: cs' := by rw [hrec]

theorem pyCollapse_of_goodSep (s : List Char) (h : goodSep s = true) :
    pyCollapse s = s :=
  pyCollapse_of_goodSep_aux s.length s (Nat.le_refl _) h

theorem spacedOk_append :
    ∀ (w t : List Char), (∀ c ∈ w, pyIsSpace c = false) → spacedOk t = true →
      spacedOk (w ++ t) = true := by
  intro w
  induction w with
  | nil => intro t _ ht; simpa using ht
  | cons a w' ih =>
    intro t hw ht
    have ha : pyIsSpace a = false := hw a (by simp)
    have hw' : ∀ c ∈ w', pyIsSpace c = false := fun c hc => hw c (List.mem_cons_of_mem a hc)
    have htail : spacedOk (w' ++ t) = true := ih t hw' ht
    cases hwt : w' ++ t with
    | nil => simp only [List.cons_append, hwt, spacedOk, ha, Bool.not_false]
    | cons b u =>
      simp only [List.cons_append, hwt, spacedOk, Bool.and_eq_true, Bool.or_eq_true]
      constructor
      · left; simp [ha]
      · rw [← hwt]; exact htail

theorem spacedOk_space_cons (b : Char) (u : List Char)
    (hb : pyIsSpace b = false) (hu : spacedOk (b :: u) = true) :
    spacedOk (' ' :: b :: u) = true := by
  simp only [spacedOk, Bool.and_eq_true, Bool.or_eq_true]
  exact ⟨Or.inr (by simp [hb]), hu⟩

theorem goodSep_pyJoin :
    ∀ (ws : List (List Char)),
      (∀ w ∈ ws, w ≠ [] ∧ ∀ c ∈ w, pyIsSpace c = false) →
      goodSep (pyJoin ws) = true := by
  intro ws
  induction ws with
  | nil => intro _; rfl
  | cons w ws' ih =>
    intro hall
    obtain ⟨hwne, hwns⟩ := hall w (by simp)
    obtain ⟨a, w₀, rfl⟩ : ∃ a w₀, w = a :: w₀ := by
      cases w with
      | nil => exact absurd rfl hwne
      | cons a w₀ => exact ⟨a, w₀, rfl⟩
    have ha : pyIsSpace a = false := hwns a (by simp)
    cases ws' with
    | nil =>
      simp only [pyJoin, goodSep, ha, Bool.not_false, Bool.true_and]
      have := spacedOk_append (a :: w₀) [] hwns (by rfl)
      simpa using this
    | cons x xs =>
      have hall' : ∀ v ∈ x :: xs, v ≠ [] ∧ ∀ c ∈ v, pyIsSpace c = false :=
        fun v hv => hall v (List.mem_cons_of_mem _ hv)
      have hjoin : goodSep (pyJoin (x :: xs)) = true := ih hall'
      obtain ⟨x0, x₀, rfl⟩ : ∃ x0 x₀, x = x0 :: x₀ := by
        obtain ⟨hxne, _⟩ := hall' (x) (by simp)
        cases x with
        | nil => exact absurd rfl hxne
        | cons x0 x₀ => exact ⟨x0, x₀, rfl⟩
      rw [pyJoin_cons_head x0 x₀ xs] at hjoin
      simp only [goodSep, Bool.and_eq_true] at hjoin
      obtain ⟨hx0, hspx⟩ := hjoin
      have hx0' : pyIsSpace x0 = false := by simpa using hx0
      rw [pyJoin_cons_of_ne (a :: w₀) ((x0 :: x₀) :: xs) (by simp),
         pyJoin_cons_head x0 x₀ xs]
      have hsp1 : spacedOk (' ' :: x0 :: pyJoin (x₀ :: xs)) = true :=
        spacedOk_space_cons x0 (pyJoin (x₀ :: xs)) hx0' hspx
      have hsp2 : spacedOk ((a :: w₀) ++ ' ' :: x0 :: pyJoin (x₀ :: xs)) = true :=
        spacedOk_append (a :: w₀) (' ' :: x0 :: pyJoin (x₀ :: xs)) hwns hsp1
      simp only [List.cons_append, goodSep, Bool.and_eq_true]
      refine ⟨by simp [ha], ?_⟩
      simpa using hsp2

theorem spacedOk_pairsOk : ∀ (l : List Char), spacedOk l = true → pairsOk l = true := by
  intro l
  induction l with
  | nil => intro _; rfl
  | cons c cs ih =>
    intro h
    cases cs with
    | nil =>
      simp only [spacedOk] at h
      simp only [pairsOk, Bool.or_eq_true]
      exact Or.inl h
    | cons d rest =>
      simp only [spacedOk, Bool.and_eq_true] at h
      simp only [pairsOk, Bool.and_eq_true]
      exact ⟨h.1, ih h.2⟩

theorem pairsOk_take : ∀ (l : List Char) (n : Nat), pairsOk l = true → pairsOk (l.take n) = true := by
  intro l
  induction l with
  | nil => intro n _; simp [pairsOk]
  | cons c cs ih =>
    intro n h
    cases n with
    | zero => rfl
    | succ n' =>
      cases cs with
      | nil => simpa [List.take] using h
      | cons d rest =>
        simp only [pairsOk, Bool.and_eq_true] at h
        cases n' with
        | zero =>
          simp only [List.take, pairsOk, Bool.or_eq_true]
          rcases Bool.or_eq_true _ _ |>.mp h.1 with h1 | h1
          · exact Or.inl h1
          · exact Or.inr (Bool.and_eq_true _ _ |>.mp h1).1
        | succ n'' =>
          simp only [List.take, pairsOk, Bool.and_eq_true]
          refine ⟨h.1, ?_⟩
          have := ih (n'' + 1) h.2
          simpa [List.take] using this

theorem pairsOk_append_dots :
    ∀ (a : List Char), pairsOk a = true → spacedOk (a ++ ['.', '.', '.']) = true := by
  intro a
  induction a with
  | nil => intro _; decide
  | cons c a' ih =>
    intro h
    cases a' with
    | nil =>
      simp only [pairsOk] at h
      simp only [List.cons_append, List.nil_append, spacedOk, Bool.and_eq_true,
        Bool.or_eq_true]
      refine ⟨?_, by decide⟩
      rcases Bool.or_eq_true _ _ |>.mp h with h1 | h1
      · exact Or.inl h1
      · exact Or.inr ⟨h1, by decide⟩
    | cons d rest =>
      simp only [pairsOk, Bool.and_eq_true] at h
      simp only [List.cons_append, spacedOk, Bool.and_eq_true]
      refine ⟨h.1, ?_⟩
      have := ih h.2
      simpa using this

theorem goodSep_take_dots (s : List Char) (n : Nat) (h : goodSep s = true) :
    goodSep (s.take n ++ ['.', '.', '.']) = true := by
  cases s with
  | nil => simp only [List.take_nil, List.nil_append]; decide
  | cons c cs =>
    cases n with
    | zero => simp only [List.take_zero, List.nil_append]; decide
    | succ n' =>
      simp only [goodSep, Bool.and_eq_true] at h
      obtain ⟨hc, hsp⟩ := h
      have hpair : pairsOk ((c :: cs).take (n' + 1)) = true :=
        pairsOk_take (c :: cs) (n' + 1) (spacedOk_pairsOk (c :: cs) hsp)
      simp only [List.take] at hpair ⊢
      have hsp' : spacedOk ((c :: cs.take n') ++ ['.', '.', '.']) = true :=
        pairsOk_append_dots (c :: cs.take n') hpair
      simp only [List.cons_append, goodSep, Bool.and_eq_true]
      refine ⟨hc, ?_⟩
      simpa using hsp'

theorem mem_pyFilterChars (c : Char) (s : List Char) (h : c ∈ pyFilterChars s) :
    allowedChar c = true :=
  List.of_mem_filter h

theorem mem_pyFilterChars_mem (c : Char) (s : List Char) (h : c ∈ pyFilterChars s) :
    c ∈ s :=
  List.mem_of_mem_filter h

theorem pyFilterChars_eq_self (s : List Char) (h : ∀ c ∈ s, allowedChar c = true) :
    pyFilterChars s = s := by
  unfold pyFilterChars
  rw [List.filter_eq_self]
  intro a ha
  exact h a ha

theorem mem_pyCollapse (c : Char) (s : List Char) (h : c ∈ pyCollapse s) :
    c = ' ' ∨ c ∈ s := by
  rcases mem_pyJoin (pySplit s) c h with h' | ⟨w, hw, hcw⟩
  · exact Or.inl h'
  · exact Or.inr ((pySplit_sound s w hw).2 c hcw).2

theorem goodSep_pyCollapse (s : List Char) : goodSep (pyCollapse s) = true := by
  apply goodSep_pyJoin
  intro w hw
  obtain ⟨hne, hall⟩ := pySplit_sound s w hw
  exact ⟨hne, fun c hc => (hall c hc).1⟩

theorem sanitize_filename_def (t : List Char) :
    sanitize_filename t =
      if 150 < (pyCollapse (pyFilterChars t)).length then
        (pyCollapse (pyFilterChars t)).take 147 ++ ['.', '.', '.']
      else pyCollapse (pyFilterChars t) := rfl

theorem sanitize_filename_chars (s : List Char) :
    ∀ c ∈ sanitize_filename s, allowedChar c = true := by
  intro c hc
  rw [sanitize_filename_def] at hc
  by_cases h : 150 < (pyCollapse (pyFilterChars s)).length
  · rw [if_pos h] at hc
    rcases List.mem_append.mp hc with hc | hc
    · have hc2 : c ∈ pyCollapse (pyFilterChars s) := List.take_subset _ _ hc
      rcases mem_pyCollapse c _ hc2 with rfl | hc3
      · decide
      · exact mem_pyFilterChars c s hc3
    · have hdot : c = '.' := by simpa using hc
      subst hdot
      decide
  · rw [if_neg h] at hc
    rcases mem_pyCollapse c _ hc with rfl | hc3
    · decide
    · exact mem_pyFilterChars c s hc3

theorem goodSep_sanitize (s : List Char) : goodSep (sanitize_filename s) = true := by
  rw [sanitize_filename_def]
  by_cases h : 150 < (pyCollapse (pyFilterChars s)).length
  · rw [if_pos h]
    exact goodSep_take_dots _ 147 (goodSep_pyCollapse _)
  · rw [if_neg h]
    exact goodSep_pyCollapse _

theorem sanitize_filename_length (s : List Char) :
    (sanitize_filename s).length ≤ 150 := by
  rw [sanitize_filename_def]
  by_cases h : 150 < (pyCollapse (pyFilterChars s)).length
  · rw [if_pos h]
    have h3 : (['.', '.', '.'] : List Char).length = 3 := rfl
    simp only [List.length_append, List.length_take, h3]
    have := Nat.min_le_left 147 (pyCollapse (pyFilterChars s)).length
    omega
  · rw [if_neg h]
    omega

/-- Claim C4: `sanitize_filename` is idempotent — for every input string
`x`, `sanitize_filename (sanitize_filename x) = sanitize_filename x`.  The
output of one pass contains only allowed characters (so the second filter
keeps everything), is in the canonical single-space form fixed by
`' '.join(s.split())`, and has length at most 150 (so the second pass does
not truncate). -/
theorem c4_sanitize_idempotent (s : List Char) :
    sanitize_filename (sanitize_filename s) = sanitize_filename s := by
  have h1 : pyFilterChars (sanitize_filename s) = sanitize_filename s :=
    pyFilterChars_eq_self _ (sanitize_filename_chars s)
  have h2 : pyCollapse (sanitize_filename s) = sanitize_filename s :=
    pyCollapse_of_goodSep _ (goodSep_sanitize s)
  have hlen := sanitize_filename_length s
  rw [sanitize_filename_def (sanitize_filename s), h1, h2, if_neg (by omega)]

/-- Claim C3, counterexample: the claim says every run of whitespace in the
input is collapsed to a single space, so on the input `"a\tb"` (whose one
whitespace run is the tab) the output would be `"a b"`; the code instead
deletes the tab at the character-filter stage (a tab is neither
alphanumeric nor in the allowed set) and returns `"ab"`. -/
theorem c3_whitespace_deleted_not_collapsed :
    sanitize_filename "a\tb".data = "ab".data ∧ "ab".data ≠ "a b".data :=
  ⟨by decide, by decide⟩

/-- Claim C3 (amended): `sanitize_filename` returns a string containing
only alphanumeric characters, space, hyphen, underscore, and period;
characters outside that set — including non-space whitespace such as tabs
— are removed outright (not collapsed to a space); runs of the surviving
spaces are collapsed to a single space and leading/trailing spaces are
stripped (`goodSep`); when the filtered-and-collapsed string exceeds 150
characters the output is its first 147 characters followed by `"..."`
(length exactly 150), otherwise it is the filtered-and-collapsed string
itself; the empty string maps to the empty string. -/
theorem c3_sanitize_contract (s : List Char) :
    (∀ c ∈ sanitize_filename s, allowedChar c = true) ∧
    goodSep (sanitize_filename s) = true ∧
    (sanitize_filename s).length ≤ 150 ∧
    ((pyCollapse (pyFilterChars s)).length ≤ 150 →
      sanitize_filename s = pyCollapse (pyFilterChars s)) ∧
    (150 < (pyCollapse (pyFilterChars s)).length →
      sanitize_filename s = (pyCollapse (pyFilterChars s)).take 147 ++ ['.', '.', '.'] ∧
      (sanitize_filename s).length = 150) ∧
    sanitize_filename [] = [] := by
  refine ⟨sanitize_filename_chars s, goodSep_sanitize s, sanitize_filename_length s, ?_, ?_, rfl⟩
  · intro h
    rw [sanitize_filename_def, if_neg (by omega)]
  · intro h
    constructor
    · rw [sanitize_filename_def, if_pos h]
    · rw [sanitize_filename_def, if_pos h]
      have h3 : (['.', '.', '.'] : List Char).length = 3 := rfl
      simp only [List.length_append, List.length_take, h3]
      have := Nat.min_le_left 147 (pyCollapse (pyFilterChars s)).length
      omega

/-- Witness for C3: a concrete run through the non-truncating branch. -/
theorem c3_sanitize_contract_w :
    sanitize_filename "a  b.pdf".data = "a b.pdf".data := by
  have h := (c3_sanitize_contract "a  b.pdf".data).2.2.2.1 (by decide)
  rw [h]
  decide

/-! ## Adapter failure-policy lemmas (claim C1) -/

theorem pyCatchAll_ok (x : Except PyExc (List Record)) :
    ∃ l, pyCatchAll x = Except.ok l := by
  cases x with
  | error e => exact ⟨[], rfl⟩
  | ok l => exact ⟨l, rfl⟩

theorem pyCatchRequests_error (x : Except PyExc (List Record)) (e : PyExc)
    (h : pyCatchRequests x = Except.error e) : e = PyExc.otherExc := by
  cases x with
  | ok l => simp [pyCatchRequests] at h
  | error e' =>
    cases e' with
    | reqExc => simp [pyCatchRequests] at h
    | otherExc =>
      simp only [pyCatchRequests] at h
      cases h
      rfl

theorem entryLoopE_skip {α : Type} (f : α → Except PyExc (Option Record))
    (pre post : List (Outcome α)) (e : PyExc) :
    entryLoopE f (pre ++ Outcome.raise e :: post) = entryLoopE f (pre ++ post) := by
  induction pre with
  | nil => rfl
  | cons x pre' ih =>
    cases x with
    | raise e' => simpa only [List.cons_append, entryLoopE] using ih
    | ok a =>
      simp only [List.cons_append, entryLoopE]
      cases hfa : f a with
      | error ex => simpa using ih
      | ok o =>
        cases o with
        | none => simpa using ih
        | some r => simp [ih]

theorem entryLoopCount_skip {α : Type} (f : α → Except PyExc (Option Record))
    (limit : Nat) (e : PyExc) :
    ∀ (pre post : List (Outcome α)) (n : Nat),
      entryLoopCount f limit (pre ++ Outcome.raise e :: post) n =
        entryLoopCount f limit (pre ++ post) n := by
  intro pre
  induction pre with
  | nil => intro post n; rfl
  | cons x pre' ih =>
    intro post n
    cases x with
    | raise e' => simpa only [List.cons_append, entryLoopCount] using ih post n
    | ok a =>
      simp only [List.cons_append, entryLoopCount]
      cases hfa : f a with
      | error ex => simpa using ih post n
      | ok o =>
        cases o with
        | none => simpa using ih post n
        | some r =>
          by_cases hl : limit ≤ n + 1
          · simp [hl]
          · simp [hl, ih post (n + 1)]

theorem search_arxiv_non200 (s : Nat) (f : Outcome (List (Outcome ArxivEntry)))
    (h : s ≠ 200) : search_arxiv (Outcome.ok s) f = Except.ok [] := by
  simp [search_arxiv, pyCatchAll, h]

theorem search_semantic_scholar_non200 (s : Nat)
    (p : Outcome (List (Outcome (Option Record)))) (h : s ≠ 200) :
    search_semantic_scholar (Outcome.ok s) p = Except.ok [] := by
  simp [search_semantic_scholar, pyCatchAll, h]

theorem search_pmc_non200_first (s : Nat) (i : Outcome (List String)) (g2 : Outcome Nat)
    (a : Outcome (List (Outcome (Option Record)))) (m : Nat) (h : s ≠ 200) :
    search_pmc (Outcome.ok s) i g2 a m = Except.ok [] := by
  simp [search_pmc, pyCatchAll, bne_iff_ne, h]

theorem search_pmc_non200_second (idl : List String) (s2 : Nat)
    (a : Outcome (List (Outcome (Option Record)))) (m : Nat)
    (hidl : idl.isEmpty = false) (h : s2 ≠ 200) :
    search_pmc (Outcome.ok 200) (Outcome.ok idl) (Outcome.ok s2) a m = Except.ok [] := by
  simp [search_pmc, pyCatchAll, bne_iff_ne, hidl, h]

theorem search_google_scholar_non200 (s : Nat)
    (p : Outcome (List (Outcome (Option Record)))) (m : Nat) (h : s ≠ 200) :
    search_google_scholar (Outcome.ok s) p m = Except.ok [] := by
  simp [search_google_scholar, pyCatchAll, h]

theorem search_google_books_non200 (s : Nat)
    (p : Outcome (List (Outcome (Option Record)))) (m : Nat) (h : s ≠ 200) :
    search_google_books (Outcome.ok s) p m = Except.ok [] := by
  simp [search_google_books, pyCatchAll, h]

theorem search_wikibooks_non200 (s : Nat)
    (p : Outcome (List (Outcome (Option Record)))) (m : Nat) (h : s ≠ 200) :
    search_wikibooks (Outcome.ok s) p m = Except.ok [] := by
  simp [search_wikibooks, pyCatchAll, h]

theorem search_openlibrary_err_status (s : Nat)
    (p : Outcome (List (Outcome (Option Record)))) (m : Nat) (h : 400 ≤ s) :
    search_openlibrary (Outcome.ok s) p m = Except.ok [] := by
  simp [search_openlibrary, pyCatchAll, h]

theorem search_eric_err_status (s : Nat)
    (p : Outcome (List (Outcome (Option Record)))) (m : Nat) (h : 400 ≤ s) :
    search_eric (Outcome.ok s) p m = Except.ok [] := by
  simp [search_eric, pyCatchRequests, h]

/-- Claim C1, counterexample: in `search_eric` the top-level handler is
`except requests.RequestException` (scraper.py:613), so a top-level
exception that is not a request exception — here, the HTML-parsing stage
raising an ordinary exception after a successful GET — propagates out of
the `search_eric` call instead of yielding the empty sequence. -/
theorem c1_eric_uncaught_exception :
    search_eric (Outcome.ok 200) (Outcome.raise PyExc.otherExc) 5 =
      Except.error PyExc.otherExc := rfl

/-- Claim C1 (amended): for all eight adapters an HTTP failure status
yields the empty sequence, and a per-entry exception skips only that entry
(the loop continues with the remaining entries, both in the plain loop and
in the loop with the `len(results) >= max_results` break); the seven
adapters other than ERIC wrap their whole body in `except Exception`, so
no exception of any kind propagates out of them; `search_eric` catches
only request-level exceptions at top level (its GET raising a
`RequestException`, or `raise_for_status` on a 4xx/5xx status), so a
top-level non-request exception propagates out of `search_eric`. -/
theorem c1_adapter_failure_policy :
    (∀ g f, ∃ l, search_arxiv g f = Except.ok l) ∧
    (∀ g p, ∃ l, search_semantic_scholar g p = Except.ok l) ∧
    (∀ g1 i g2 a m, ∃ l, search_pmc g1 i g2 a m = Except.ok l) ∧
    (∀ g p m, ∃ l, search_google_scholar g p m = Except.ok l) ∧
    (∀ g p m, ∃ l, search_google_books g p m = Except.ok l) ∧
    (∀ g p m, ∃ l, search_wikibooks g p m = Except.ok l) ∧
    (∀ g p m, ∃ l, search_openlibrary g p m = Except.ok l) ∧
    (∀ s f, s ≠ 200 → search_arxiv (Outcome.ok s) f = Except.ok []) ∧
    (∀ s p, s ≠ 200 → search_semantic_scholar (Outcome.ok s) p = Except.ok []) ∧
    (∀ s i g2 a m, s ≠ 200 → search_pmc (Outcome.ok s) i g2 a m = Except.ok []) ∧
    (∀ idl s2 a m, idl.isEmpty = false → s2 ≠ 200 →
      search_pmc (Outcome.ok 200) (Outcome.ok idl) (Outcome.ok s2) a m = Except.ok []) ∧
    (∀ s p m, s ≠ 200 → search_google_scholar (Outcome.ok s) p m = Except.ok []) ∧
    (∀ s p m, s ≠ 200 → search_google_books (Outcome.ok s) p m = Except.ok []) ∧
    (∀ s p m, s ≠ 200 → search_wikibooks (Outcome.ok s) p m = Except.ok []) ∧
    (∀ s p m, 400 ≤ s → search_openlibrary (Outcome.ok s) p m = Except.ok []) ∧
    (∀ p m, search_eric (Outcome.raise PyExc.reqExc) p m = Except.ok []) ∧
    (∀ s p m, 400 ≤ s → search_eric (Outcome.ok s) p m = Except.ok []) ∧
    (∀ g p m e, search_eric g p m = Except.error e → e = PyExc.otherExc) ∧
    (∀ (α : Type) (f : α → Except PyExc (Option Record)) (pre post : List (Outcome α))
        (e : PyExc),
      entryLoopE f (pre ++ Outcome.raise e :: post) = entryLoopE f (pre ++ post)) ∧
    (∀ (α : Type) (f : α → Except PyExc (Option Record)) (limit : Nat)
        (pre post : List (Outcome α)) (n : Nat) (e : PyExc),
      entryLoopCount f limit (pre ++ Outcome.raise e :: post) n =
        entryLoopCount f limit (pre ++ post) n) := by
  refine ⟨fun g f => pyCatchAll_ok _, fun g p => pyCatchAll_ok _,
    fun g1 i g2 a m => pyCatchAll_ok _, fun g p m => pyCatchAll_ok _,
    fun g p m => pyCatchAll_ok _, fun g p m => pyCatchAll_ok _,
    fun g p m => pyCatchAll_ok _,
    fun s f h => search_arxiv_non200 s f h,
    fun s p h => search_semantic_scholar_non200 s p h,
    fun s i g2 a m h => search_pmc_non200_first s i g2 a m h,
    fun idl s2 a m hi h => search_pmc_non200_second idl s2 a m hi h,
    fun s p m h => search_google_scholar_non200 s p m h,
    fun s p m h => search_google_books_non200 s p m h,
    fun s p m h => search_wikibooks_non200 s p m h,
    fun s p m h => search_openlibrary_err_status s p m h,
    fun p m => rfl,
    fun s p m h => search_eric_err_status s p m h,
    fun g p m e h => pyCatchRequests_error _ e h,
    fun α f pre post e => entryLoopE_skip f pre post e,
    fun α f limit pre post n e => entryLoopCount_skip f limit e pre post n⟩

/-- Witness for C1: concrete instances of the hypothesis-bearing parts. -/
theorem c1_adapter_failure_policy_w :
    search_arxiv (Outcome.ok 500) (Outcome.ok []) = Except.ok [] ∧
    search_eric (Outcome.ok 404) (Outcome.ok []) 5 = Except.ok [] ∧
    PyExc.otherExc = PyExc.otherExc := by
  obtain ⟨h1, h2, h3, h4, h5, h6, h7, h8, h9, h10, h11, h12, h13, h14, h15, h16, h17, h18,
    h19, h20⟩ := c1_adapter_failure_policy
  refine ⟨h8 500 (Outcome.ok []) (by omega), h17 404 (Outcome.ok []) 5 (by omega), ?_⟩
  exact h18 (Outcome.ok 200) (Outcome.raise PyExc.otherExc) 5 PyExc.otherExc rfl

/-! ## Orchestrator submission lemmas (claims C2, C7) -/

/-- Claim C2, counterexample: the submission guard of scraper.py:731 is
`paper.get('pdf_url') or paper.get('url')` — the title is never consulted.
A record with an empty title and a non-empty url is submitted for
download, although the claim's eligibility condition (`specEligible`,
modelled from the spec) requires a non-empty title. -/
theorem c2_title_not_checked :
    submittedPapers [(⟨"", [], "", "", some "http://example.org/a.pdf", none, none⟩ : Record)] =
      [(⟨"", [], "", "", some "http://example.org/a.pdf", none, none⟩ : Record)] ∧
    specEligible ⟨"", [], "", "", some "http://example.org/a.pdf", none, none⟩ = false := by
  exact ⟨rfl, rfl⟩

/-- Claim C2 (amended): `search_and_download` submits a download task for a
record if and only if the record carries a truthy `pdf_url` or a truthy
`url` (non-`None`, non-empty); the title plays no role in the submission
decision.  The claim's second sentence survives: a record with empty `url`
and empty `pdf_url` is never submitted. -/
theorem c2_submission_iff (allResults : List Record) (p : Record) :
    (p ∈ submittedPapers allResults ↔
      p ∈ allResults ∧ (pyTruthy p.pdf_url || pyTruthy p.url) = true) ∧
    (pyTruthy p.url = false → pyTruthy p.pdf_url = false →
      p ∉ submittedPapers allResults) := by
  constructor
  · unfold submittedPapers submitFilter
    exact List.mem_filter
  · intro hu hp hmem
    unfold submittedPapers submitFilter at hmem
    have := (List.mem_filter.mp hmem).2
    rw [hu, hp] at this
    simp at this

/-- Witness for C2: a record with no urls is not submitted. -/
theorem c2_submission_iff_w :
    (⟨"t", [], "", "", none, none, none⟩ : Record) ∉
      submittedPapers [(⟨"t", [], "", "", none, none, none⟩ : Record)] :=
  (c2_submission_iff _ _).2 rfl rfl

/-- Claim C7: `search_and_download` accumulates the record pool as the
concatenation of the eight adapter result lists in the fixed invocation
order arXiv, Semantic Scholar, PMC, Google Scholar, Google Books,
Wikibooks, ERIC, OpenLibrary (within-adapter order preserved by
`extend`), and when the concatenation is empty it returns the empty list
immediately with no download submitted. -/
theorem c7_accumulate_order_and_empty :
    (∀ r1 r2 r3 r4 r5 r6 r7 r8 : List Record,
      accumulate r1 r2 r3 r4 r5 r6 r7 r8 =
        r1 ++ (r2 ++ (r3 ++ (r4 ++ (r5 ++ (r6 ++ (r7 ++ r8))))))) ∧
    (∀ (r1 r2 r3 r4 r5 r6 r7 r8 : List Record)
        (dl : Option String → String → Except PyExc (Bool × Option String)),
      accumulate r1 r2 r3 r4 r5 r6 r7 r8 = [] →
      search_and_download r1 r2 r3 r4 r5 r6 r7 r8 dl = [] ∧
      submittedPapers (accumulate r1 r2 r3 r4 r5 r6 r7 r8) = []) := by
  constructor
  · intro r1 r2 r3 r4 r5 r6 r7 r8
    simp [accumulate, List.append_assoc]
  · intro r1 r2 r3 r4 r5 r6 r7 r8 dl h
    constructor
    · simp [search_and_download, h]
    · rw [h]
      rfl

/-- Witness for C7: with all eight adapters returning nothing, the
orchestrator returns the empty list and submits nothing. -/
theorem c7_accumulate_order_and_empty_w :
    search_and_download [] [] [] [] [] [] [] []
      (fun _ _ => Except.ok (true, some "p")) = [] ∧
    submittedPapers (accumulate [] [] [] [] [] [] [] []) = [] :=
  c7_accumulate_order_and_empty.2 [] [] [] [] [] [] [] []
    (fun _ _ => Except.ok (true, some "p")) rfl

/-! ## arXiv PDF-link derivation (claim C9) -/

theorem arxivPdfUrl_eq_find :
    ∀ links : List ArxivLink,
      arxivPdfUrl links =
        match links.find? (fun l =>
            l.titleAttr == some "pdf" || l.typeAttr == some "application/pdf") with
        | none => Except.ok none
        | some l =>
          match l.href with
          | none => Except.error PyExc.otherExc
          | some h =>
            Except.ok (some (if strContains h "pdf" then h
              else pyReplace h "abs" "pdf" ++ ".pdf")) := by
  intro links
  induction links with
  | nil => rfl
  | cons l ls ih =>
    by_cases hcond : (l.titleAttr == some "pdf" || l.typeAttr == some "application/pdf") = true
    · simp [arxivPdfUrl, List.find?, hcond]
    · simp only [arxivPdfUrl, hcond, if_false, List.find?]
      simp only [Bool.false_eq_true, if_false]
      exact ih

theorem entryLoopE_drop_none {α : Type} (f : α → Except PyExc (Option Record))
    (pre post : List (Outcome α)) (a : α) (h : f a = Except.ok none) :
    entryLoopE f (pre ++ Outcome.ok a :: post) = entryLoopE f (pre ++ post) := by
  induction pre with
  | nil => simp [entryLoopE, h]
  | cons x pre' ih =>
    cases x with
    | raise e' => simpa only [List.cons_append, entryLoopE] using ih
    | ok b =>
      simp only [List.cons_append, entryLoopE]
      cases hfb : f b with
      | error ex => simpa using ih
      | ok o =>
        cases o with
        | none => simpa using ih
        | some r => simp [ih]

/-- Claim C9, counterexample: the claim's fallback — "otherwise it rewrites
an `abs` link's path segment to `pdf` and appends `.pdf`" — does not exist
in the code.  For an entry whose only link is an `abs` link with no
`pdf` tag or MIME type, the code derives no PDF link at all (`arxivPdfUrl`
returns `none`, so the entry is dropped), while the claimed derivation
(`specArxivPdfUrl`, modelled from the spec) produces the rewritten URL.
The code's rewrite applies only to the href of an already-tagged PDF link
that happens to lack the substring `'pdf'`. -/
theorem c9_no_abs_fallback :
    arxivPdfUrl [⟨none, some "text/html", some "http://arxiv.org/abs/1"⟩] = Except.ok none ∧
    specArxivPdfUrl [⟨none, some "text/html", some "http://arxiv.org/abs/1"⟩] =
      some "http://arxiv.org/pdf/1.pdf" := by
  constructor
  · rfl
  · decide

/-- Claim C9 (amended): the arXiv adapter inspects only links tagged
`pdf` (attribute `title == 'pdf'`) or of MIME type `application/pdf`; the
first such link decides the record: if its `href` contains the substring
`'pdf'` it is used as-is, otherwise that same href is rewritten
(`'abs'` to `'pdf'`, with `'.pdf'` appended); a matching link without an
`href` raises inside the per-entry handler (entry skipped); an entry with
no matching link yields no PDF link and is silently excluded from the
results rather than causing an error. -/
theorem c9_arxiv_pdf_link (e : ArxivEntry) :
    (e.links.find? (fun l =>
        l.titleAttr == some "pdf" || l.typeAttr == some "application/pdf") = none →
      processArxivEntry e = Except.ok none) ∧
    (∀ l, e.links.find? (fun l =>
        l.titleAttr == some "pdf" || l.typeAttr == some "application/pdf") = some l →
      l.href = none → processArxivEntry e = Except.error PyExc.otherExc) ∧
    (∀ l h, e.links.find? (fun l =>
        l.titleAttr == some "pdf" || l.typeAttr == some "application/pdf") = some l →
      l.href = some h →
      processArxivEntry e = Except.ok (some
        ⟨e.title, e.authors, e.published, e.summary,
          some (if strContains h "pdf" then h else pyReplace h "abs" "pdf" ++ ".pdf"),
          none, none⟩)) ∧
    (∀ (f : ArxivEntry → Except PyExc (Option Record)) (pre post : List (Outcome ArxivEntry))
        (a : ArxivEntry), f a = Except.ok none →
      entryLoopE f (pre ++ Outcome.ok a :: post) = entryLoopE f (pre ++ post)) := by
  refine ⟨?_, ?_, ?_, fun f pre post a h => entryLoopE_drop_none f pre post a h⟩
  · intro hfind
    unfold processArxivEntry
    rw [arxivPdfUrl_eq_find, hfind]
  · intro l hfind hhref
    unfold processArxivEntry
    rw [arxivPdfUrl_eq_find, hfind]
    simp [hhref]
  · intro l h hfind hhref
    unfold processArxivEntry
    rw [arxivPdfUrl_eq_find, hfind]
    simp [hhref]

/-- Witness for C9: a concrete entry whose first tagged link's href lacks
`'pdf'` gets the rewritten URL. -/
theorem c9_arxiv_pdf_link_w :
    processArxivEntry ⟨"T", ["A"], "2020", "S",
        [⟨some "pdf", none, some "http://arxiv.org/abs/2"⟩]⟩ =
      Except.ok (some ⟨"T", ["A"], "2020", "S", some "http://arxiv.org/pdf/2.pdf",
        none, none⟩) := by
  have h := (c9_arxiv_pdf_link ⟨"T", ["A"], "2020", "S",
    [⟨some "pdf", none, some "http://arxiv.org/abs/2"⟩]⟩).2.2.1
    ⟨some "pdf", none, some "http://arxiv.org/abs/2"⟩ "http://arxiv.org/abs/2" rfl rfl
  rw [h]
  rfl

/-! ## Download worker (claims C5, C6, C10) -/

theorem download_paper_total (env : DlEnv) (outputDir : String) (url : Option String)
    (title : String) :
    ∃ v, (download_paper env outputDir url title).res = Except.ok v := by
  unfold download_paper
  cases h : (download_paper_run env outputDir url title).res with
  | error e => exact ⟨(false, none), by simp [h]⟩
  | ok v => exact ⟨v, by simp [h]⟩

/-- Claim C5: when a file already exists at the computed path (output
directory joined with the sanitized title, `'.pdf'`-suffixed when needed)
and the output-directory creation does not fail, `download_paper` returns
success with that path and performs no network fetch; calling it twice
against the existing file therefore succeeds both times with zero (hence
at most one) fetch in total, and leaves the filesystem unchanged. -/
theorem c5_existing_file_no_fetch (env : DlEnv) (outputDir : String) (url : Option String)
    (title : String) (hmk : env.mkdir = Outcome.ok ())
    (hex : env.fsExists (computedPath outputDir title) = true) :
    (download_paper env outputDir url title).res =
      Except.ok (true, some (computedPath outputDir title)) ∧
    (download_paper env outputDir url title).fetches = 0 ∧
    (download_paper env outputDir url title).fs = env.fsExists ∧
    (download_paper { env with fsExists := (download_paper env outputDir url title).fs }
        outputDir url title).res =
      Except.ok (true, some (computedPath outputDir title)) ∧
    (download_paper env outputDir url title).fetches +
      (download_paper { env with fsExists := (download_paper env outputDir url title).fs }
        outputDir url title).fetches ≤ 1 := by
  obtain ⟨mk, fse, fe, wr⟩ := env
  simp only at hmk hex
  subst hmk
  simp [download_paper, download_paper_run, hex]

/-- Witness for C5: a concrete filesystem in which the computed path
`downloads/t.pdf` is present. -/
theorem c5_existing_file_no_fetch_w :
    (download_paper ⟨Outcome.ok (), fun p => p == "downloads/t.pdf", Outcome.ok 200,
        Outcome.ok ()⟩ "downloads" (some "u") "t").res =
      Except.ok (true, some "downloads/t.pdf") ∧
    (download_paper ⟨Outcome.ok (), fun p => p == "downloads/t.pdf", Outcome.ok 200,
        Outcome.ok ()⟩ "downloads" (some "u") "t").fetches = 0 := by
  have h := c5_existing_file_no_fetch
    ⟨Outcome.ok (), fun p => p == "downloads/t.pdf", Outcome.ok 200, Outcome.ok ()⟩
    "downloads" (some "u") "t" rfl rfl
  exact ⟨h.1, h.2.1⟩

/-- Claim C6, counterexample: the fetch returns HTTP 200 but an exception
while streaming the body to disk (scraper.py:764-767) makes
`download_paper` report failure, contradicting "reports success exactly
when the fetch returns HTTP 200". -/
theorem c6_success_not_iff_200 :
    (download_paper ⟨Outcome.ok (), fun _ => false, Outcome.ok 200,
        Outcome.raise PyExc.otherExc⟩ "downloads" (some "u") "t").res =
      Except.ok (false, none) ∧
    (⟨Outcome.ok (), fun _ => false, Outcome.ok 200,
        Outcome.raise PyExc.otherExc⟩ : DlEnv).fetch = Outcome.ok 200 := by
  exact ⟨rfl, rfl⟩

/-- Claim C6 (amended): when the computed path does not already exist (and
directory creation succeeds), `download_paper` reports success — `(True,
path)` — exactly when the fetch returns HTTP 200 AND the body streams to
disk without exception; a non-200 status, a fetch exception, or a
mid-stream write exception each yield `(False, None)`; on a mid-stream
failure the partially-written file remains on the filesystem (it is never
removed), while a non-200 status or fetch exception leaves the filesystem
unchanged. -/
theorem c6_download_outcomes (env : DlEnv) (outputDir : String) (url : Option String)
    (title : String) (hmk : env.mkdir = Outcome.ok ())
    (hex : env.fsExists (computedPath outputDir title) = false) :
    ((download_paper env outputDir url title).res =
        Except.ok (true, some (computedPath outputDir title)) ↔
      env.fetch = Outcome.ok 200 ∧ env.write = Outcome.ok ()) ∧
    (∀ e, env.fetch = Outcome.ok 200 → env.write = Outcome.raise e →
      (download_paper env outputDir url title).res = Except.ok (false, none) ∧
      (download_paper env outputDir url title).fs (computedPath outputDir title) = true) ∧
    (∀ s, env.fetch = Outcome.ok s → s ≠ 200 →
      (download_paper env outputDir url title).res = Except.ok (false, none) ∧
      (download_paper env outputDir url title).fs = env.fsExists) ∧
    (∀ e, env.fetch = Outcome.raise e →
      (download_paper env outputDir url title).res = Except.ok (false, none) ∧
      (download_paper env outputDir url title).fs = env.fsExists) := by
  obtain ⟨mk, fse, fe, wr⟩ := env
  simp only at hmk hex ⊢
  subst hmk
  cases fe with
  | raise e =>
    refine ⟨?_, ?_, ?_, ?_⟩
    · simp [download_paper, download_paper_run, hex]
    · intro e' he; exact absurd he (by simp)
    · intro s hs; exact absurd hs (by simp)
    · intro e' _; simp [download_paper, download_paper_run, hex]
  | ok s =>
    by_cases hs : s = 200
    · subst hs
      cases wr with
      | raise e =>
        refine ⟨?_, ?_, ?_, ?_⟩
        · simp [download_paper, download_paper_run, hex]
        · intro e' _ he'
          cases he'
          simp [download_paper, download_paper_run, hex, fsAdd]
        · intro s' hs' hne; cases hs'; exact absurd rfl hne
        · intro e' he'; exact absurd he' (by simp)
      | ok u =>
        cases u
        refine ⟨?_, ?_, ?_, ?_⟩
        · simp [download_paper, download_paper_run, hex]
        · intro e' _ he'; exact absurd he' (by simp)
        · intro s' hs' hne; cases hs'; exact absurd rfl hne
        · intro e' he'; exact absurd he' (by simp)
    · refine ⟨?_, ?_, ?_, ?_⟩
      · simp only [download_paper, download_paper_run, hex]
        constructor
        · intro h
          exfalso
          simp [hs] at h
        · intro ⟨h1, _⟩
          cases h1
          exact absurd rfl hs
      · intro e' he'; cases he'; exact absurd rfl hs
      · intro s' hs' _
        cases hs'
        simp [download_paper, download_paper_run, hex, hs]
      · intro e' he'; exact absurd he' (by simp)

/-- Witness for C6: a concrete successful download creates the file at the
computed path. -/
theorem c6_download_outcomes_w :
    (download_paper ⟨Outcome.ok (), fun _ => false, Outcome.ok 200, Outcome.ok ()⟩
        "downloads" (some "u") "t").res = Except.ok (true, some "downloads/t.pdf") := by
  have h := (c6_download_outcomes
    ⟨Outcome.ok (), fun _ => false, Outcome.ok 200, Outcome.ok ()⟩
    "downloads" (some "u") "t" rfl rfl).1.mpr ⟨rfl, rfl⟩
  exact h

/-- Claim C10 (implicit): `download_paper` is total — every failure path of
its body, including output-directory creation, is caught by the
`except Exception` handler and converted to `(False, None)`, so it always
returns a `(bool, path-or-null)` pair and never raises; consequently no
future built from it ever hits the orchestrator's per-future `except`
branch (scraper.py:740-741): the list of errored futures is empty for
every record pool and download environment. -/
theorem c10_download_total :
    (∀ (env : DlEnv) (outputDir : String) (url : Option String) (title : String),
      ∃ v, (download_paper env outputDir url title).res = Except.ok v) ∧
    (∀ (r1 r2 r3 r4 r5 r6 r7 r8 : List Record)
        (denv : Option String → String → DlEnv) (outputDir : String),
      erroredFutures ((submittedPapers (accumulate r1 r2 r3 r4 r5 r6 r7 r8)).map
        (fun p => ((download_paper (denv (downloadArg p) p.title) outputDir
          (downloadArg p) p.title).res, p.title))) = []) := by
  constructor
  · exact download_paper_total
  · intro r1 r2 r3 r4 r5 r6 r7 r8 denv outputDir
    generalize submittedPapers (accumulate r1 r2 r3 r4 r5 r6 r7 r8) = l
    induction l with
    | nil => rfl
    | cons p l' ih =>
      obtain ⟨v, hv⟩ := download_paper_total (denv (downloadArg p) p.title) outputDir
        (downloadArg p) p.title
      simp only [List.map_cons, erroredFutures, List.filterMap_cons, hv]
      exact ih

/-! ## Outbound request timeouts (claim C8) -/

/-- Claim C8, counterexample: the ERIC search GET of scraper.py:539 passes
no `timeout=` argument at all (and neither do the ERIC HEAD probe of
scraper.py:568 and the OpenLibrary GET of scraper.py:638), so not every
outbound request is issued with a 30-second timeout. -/
theorem c8_eric_get_has_no_timeout :
    (⟨"search_eric", 539, RequestKind.get, none⟩ : RequestSite) ∈ requestSites ∧
    (⟨"search_eric", 539, RequestKind.get, none⟩ : RequestSite).timeout ≠ some 30 := by
  constructor
  · decide
  · decide

/-- Claim C8 (amended): every outbound HTTP request in the program carries
a 30-second timeout except exactly three calls, which carry no timeout at
all: the ERIC search GET (scraper.py:539), the ERIC HEAD probe
(scraper.py:568) and the OpenLibrary search GET (scraper.py:638). -/
theorem c8_timeouts :
    ∀ s ∈ requestSites,
      (s.timeout = some 30 ∨ s.timeout = none) ∧
      (s.timeout = none ↔ (s.caller, s.line) ∈
        ([("search_eric", 539), ("search_eric", 568), ("search_openlibrary", 638)] :
          List (String × Nat))) := by
  decide

/-- Witness for C8: the arXiv GET carries the 30-second timeout and is not
one of the three timeout-less calls. -/
theorem c8_timeouts_w :
    ((⟨"search_arxiv", 63, RequestKind.get, some 30⟩ : RequestSite).timeout = some 30 ∨
      (⟨"search_arxiv", 63, RequestKind.get, some 30⟩ : RequestSite).timeout = none) ∧
    ((⟨"search_arxiv", 63, RequestKind.get, some 30⟩ : RequestSite).timeout = none ↔
      (("search_arxiv", 63) : String × Nat) ∈
        ([("search_eric", 539), ("search_eric", 568), ("search_openlibrary", 638)] :
          List (String × Nat))) :=
  c8_timeouts ⟨"search_arxiv", 63, RequestKind.get, some 30⟩ (by decide)
